import Mathlib

/-!
Verification of the fx2trt graph-to-engine compilation layer
(`torch/fx/experimental/fx2trt/fx2trt.py`): a shallow embedding of the
type/device mapping functions, the converter registry, the graph
interpreter visitation handlers, the engine-build driver, and the
compiled-engine wrapper (`TRTModule`), together with theorems settling
the specification claims.

Python exceptions are modelled by the `PyErr` type and fallible code
returns `Except PyErr _`.  The peculiarity of `torch_device_to_trt` /
`torch_device_from_trt` — they `return TypeError(...)` instead of
raising — is modelled faithfully: those two functions are total and
return a value that is either a tensor location / device or a
`TypeError` object.
-/

set_option autoImplicit false

deriving instance DecidableEq for Except

namespace Fx2Trt

/-- Python exceptions raised by the code under study. -/
inductive PyErr where
  /-- `TypeError` with its message. -/
  | typeError (msg : String)
  /-- `IndexError`, e.g. from `inputs[0]` on an empty argument list. -/
  | indexError
  /-- `AttributeError`, e.g. from using `self.engine` while it is `None`. -/
  | attributeError
  /-- `StopIteration`, raised by `next()` on an exhausted iterator. -/
  | stopIteration
  /-- `AssertionError` from a failed `assert`, with the message if any. -/
  | assertionError (msg : String)
  /-- `RuntimeError` with its message. -/
  | runtimeError (msg : String)
deriving DecidableEq, Repr

/-- The torch scalar types that appear in the mapping layer, plus
representatives of the unsupported ones (`float64`, `int64`, `uint8`). -/
inductive TorchDtype where
  | bool | int8 | int32 | float16 | float32
  | float64 | int64 | uint8
deriving DecidableEq, Repr

/-- Printable form of a torch dtype, standing in for Python `"%s" % dtype`. -/
def TorchDtype.repr : TorchDtype → String
  | .bool => "torch.bool"
  | .int8 => "torch.int8"
  | .int32 => "torch.int32"
  | .float16 => "torch.float16"
  | .float32 => "torch.float32"
  | .float64 => "torch.float64"
  | .int64 => "torch.int64"
  | .uint8 => "torch.uint8"

/-- The TensorRT scalar types produced by the mapping layer. -/
inductive TrtDtype where
  | bool | int8 | int32 | float16 | float32
deriving DecidableEq, Repr

/-- Lexicographic order on character lists by code point, the order
Python uses to compare strings. -/
def charListLE : List Char → List Char → Bool
  | [], _ => true
  | _ :: _, [] => false
  | a :: as, b :: bs =>
    if a < b then true else if b < a then false else charListLE as bs

/-- Python string comparison `a <= b` (lexicographic by code point). -/
def pyStrLE (a b : String) : Bool := charListLE a.data b.data

/-- `trt.__version__ >= '7.0'`: Python compares the version strings
lexicographically. -/
def trtVersionGE70 (ver : String) : Bool := pyStrLE "7.0" ver

/-- `torch_dtype_to_trt` (fx2trt.py lines 12-24): maps a torch dtype to
the TensorRT dtype, raising `TypeError` for unsupported dtypes.  The
`bool` case is guarded by the version check. -/
def torch_dtype_to_trt (ver : String) (dtype : TorchDtype) : Except PyErr TrtDtype :=
  if trtVersionGE70 ver && (dtype == TorchDtype.bool) then .ok .bool
  else if dtype == TorchDtype.int8 then .ok .int8
  else if dtype == TorchDtype.int32 then .ok .int32
  else if dtype == TorchDtype.float16 then .ok .float16
  else if dtype == TorchDtype.float32 then .ok .float32
  else .error (.typeError (dtype.repr ++ " is not supported by tensorrt"))

/-- `torch_dtype_from_trt` (fx2trt.py lines 27-39): inverse direction;
note the source checks `int8` first and guards `bool` by the version. -/
def torch_dtype_from_trt (ver : String) (dtype : TrtDtype) : Except PyErr TorchDtype :=
  if dtype == TrtDtype.int8 then .ok .int8
  else if trtVersionGE70 ver && (dtype == TrtDtype.bool) then .ok .bool
  else if dtype == TrtDtype.int32 then .ok .int32
  else if dtype == TrtDtype.float16 then .ok .float16
  else if dtype == TrtDtype.float32 then .ok .float32
  else .error (.typeError "trt dtype is not supported by torch")

/-- A torch device: its type string (`"cpu"`, `"cuda"`, `"xla"`, ...)
and optional index, as in `torch.device("cuda:1")`. -/
structure TorchDevice where
  type : String
  index : Option Nat
deriving DecidableEq, Repr

/-- Printable form of a torch device, standing in for `"%s" % device`. -/
def TorchDevice.repr (d : TorchDevice) : String :=
  match d.index with
  | none => d.type
  | some i => d.type ++ ":" ++ toString i

/-- `torch.device("cpu")`. -/
def deviceCpu : TorchDevice := { type := "cpu", index := none }

/-- `torch.device("cuda")`. -/
def deviceCuda : TorchDevice := { type := "cuda", index := none }

/-- `trt.TensorLocation`: the TensorRT tensor-location enumeration. -/
inductive TrtTensorLocation where
  | DEVICE | HOST
deriving DecidableEq, Repr

/-- What `torch_device_to_trt` returns.  The source has `return
TypeError(...)` (not `raise`) in its else branch, so the function never
raises: it returns either a tensor location or a `TypeError` object. -/
inductive DeviceToTrtRet where
  | loc (l : TrtTensorLocation)
  /-- A `TypeError` exception object returned as an ordinary value. -/
  | typeErrorValue (msg : String)
deriving DecidableEq, Repr

/-- `torch_device_to_trt` (fx2trt.py lines 41-47).  Comparison is on
`device.type` against `torch.device("cuda").type` / `torch.device("cpu").type`.
The unsupported branch is `return TypeError(...)`: a normal return. -/
def torch_device_to_trt (device : TorchDevice) : DeviceToTrtRet :=
  if device.type == "cuda" then .loc .DEVICE
  else if device.type == "cpu" then .loc .HOST
  else .typeErrorValue (device.repr ++ " is not supported by tensorrt")

/-- Argument domain of `torch_device_from_trt`: a genuine TensorRT
tensor location, or any other Python value (identified by its printable
form), which compares unequal to both enumeration members. -/
inductive TrtLocationArg where
  | loc (l : TrtTensorLocation)
  | other (repr : String)
deriving DecidableEq, Repr

/-- What `torch_device_from_trt` returns: likewise it never raises. -/
inductive DeviceFromTrtRet where
  | dev (d : TorchDevice)
  /-- A `TypeError` exception object returned as an ordinary value. -/
  | typeErrorValue (msg : String)
deriving DecidableEq, Repr

/-- `torch_device_from_trt` (fx2trt.py lines 50-56).  The unsupported
branch is again `return TypeError(...)`: a normal return. -/
def torch_device_from_trt (device : TrtLocationArg) : DeviceFromTrtRet :=
  match device with
  | .loc .DEVICE => .dev deviceCuda
  | .loc .HOST => .dev deviceCpu
  | .other r => .typeErrorValue (r ++ " is not supported by torch")

/-- Composition `torch_device_from_trt (torch_device_to_trt dev)`,
threading the returned location through; a returned `TypeError` object
is propagated unchanged. -/
def device_roundtrip (d : TorchDevice) : DeviceFromTrtRet :=
  match torch_device_to_trt d with
  | .loc l => torch_device_from_trt (.loc l)
  | .typeErrorValue m => .typeErrorValue m

/-- The supported torch dtypes per the spec: int8, int32, float16,
float32, and bool exactly when the TensorRT version supports it. -/
def supportedTorchDtype (ver : String) (d : TorchDtype) : Bool :=
  d == TorchDtype.int8 || d == TorchDtype.int32 || d == TorchDtype.float16 ||
    d == TorchDtype.float32 || (d == TorchDtype.bool && trtVersionGE70 ver)

/-! ### Compiled-engine wrapper (`TRTModule`) -/

/-- One named binding of a built engine: its name, shape, dtype and
tensor location, as queried by `get_binding_shape` / `get_binding_dtype`
/ `get_location`. -/
structure EngineBinding where
  name : String
  shape : List Nat
  dtype : TrtDtype
  location : TrtTensorLocation
deriving DecidableEq, Repr

/-- A built TensorRT engine, abstracted to what `TRTModule` observes:
its named bindings (in binding-index order) and whether it uses an
implicit batch dimension. -/
structure CudaEngine where
  bindings : List EngineBinding
  has_implicit_batch_dimension : Bool
deriving DecidableEq, Repr

/-- The serialized byte representation of an engine.  A byte blob is
opaque and deserialization reconstructs the whole engine from it, so
the blob is modelled as carrying the engine data itself. -/
abbrev EngineBytes := CudaEngine

/-- `engine.serialize()`. -/
def CudaEngine.serialize (e : CudaEngine) : EngineBytes := e

/-- `runtime.deserialize_cuda_engine(engine_bytes)`. -/
def deserialize_cuda_engine (b : EngineBytes) : CudaEngine := b

/-- `engine.get_binding_index(name)`: index of the named binding. -/
def CudaEngine.get_binding_index (e : CudaEngine) (name : String) : Option Nat :=
  e.bindings.findIdx? (fun b => b.name == name)

/-- `TRTModule` state: the optional engine, the optional input/output
name lists and the `fp16_output` flag.  (The execution context is
derived from the engine and carries no further state here.) -/
structure TRTModule where
  engine : Option CudaEngine
  input_names : Option (List String)
  output_names : Option (List String)
  fp16_output : Bool
deriving DecidableEq, Repr

/-- `TRTModule.__init__(engine, input_names, output_names, fp16_output)`
(fx2trt.py lines 60-70). -/
def TRTModule_init (engine : Option CudaEngine) (input_names output_names : Option (List String))
    (fp16_output : Bool) : TRTModule :=
  { engine := engine, input_names := input_names, output_names := output_names,
    fp16_output := fp16_output }

/-- The record `_on_state_dict` writes under its prefix: engine bytes,
input names, output names and the `fp16_output` flag. -/
structure TRTModuleStateDict where
  engine : EngineBytes
  input_names : Option (List String)
  output_names : Option (List String)
  fp16_output : Bool
deriving DecidableEq, Repr

/-- `TRTModule._on_state_dict` (fx2trt.py lines 72-76): serializes the
engine and records the name lists and the precision flag.  Accessing
`self.engine.serialize()` with no engine raises `AttributeError`. -/
def TRTModule_on_state_dict (m : TRTModule) : Except PyErr TRTModuleStateDict :=
  match m.engine with
  | none => .error .attributeError
  | some e =>
    .ok { engine := e.serialize, input_names := m.input_names,
          output_names := m.output_names, fp16_output := m.fp16_output }

/-- `TRTModule._load_from_state_dict` (fx2trt.py lines 78-95):
deserializes the engine and restores `input_names` and `output_names`.
Note: the stored `fp16_output` entry is NOT read back; the field keeps
whatever value the receiving module already had. -/
def TRTModule_load_from_state_dict (m : TRTModule) (sd : TRTModuleStateDict) : TRTModule :=
  { m with engine := some (deserialize_cuda_engine sd.engine),
           input_names := sd.input_names,
           output_names := sd.output_names }

/-- A torch tensor, abstracted to what `TRTModule.forward` observes:
shape, dtype and device. -/
structure Tensor where
  shape : List Nat
  dtype : TorchDtype
  device : TorchDevice
deriving DecidableEq, Repr

/-- Python list indexing `l[i]` for non-negative `i`: raises
`IndexError` when out of range. -/
def pyListGet {α : Type} (l : List α) (i : Nat) : Except PyErr α :=
  match l.get? i with
  | some v => .ok v
  | none => .error .indexError

/-- Reading an attribute expected to hold a value, raising
`AttributeError`-style failure when it is `None` and then used. -/
def pyRequire {α : Type} (o : Option α) (e : PyErr) : Except PyErr α :=
  match o with
  | some v => .ok v
  | none => .error e

/-- What `TRTModule.forward` returns: `outputs[0]` when there is
exactly one output, the tuple of outputs otherwise. -/
inductive ForwardRet where
  | single (t : Tensor)
  | tup (ts : List Tensor)
deriving DecidableEq, Repr

/-- Allocation of one output tensor inside the `forward` output loop
(fx2trt.py lines 104-116): look up the binding index, map its dtype and
location back to torch, and prepend the batch size when the engine uses
an implicit batch dimension. -/
def forwardOutputTensor (ver : String) (eng : CudaEngine) (batch_size : Nat) (oname : String) :
    Except PyErr Tensor := do
  let idx ← pyRequire (eng.get_binding_index oname) (.runtimeError "binding not found")
  let b ← pyListGet eng.bindings idx
  let dtype ← torch_dtype_from_trt ver b.dtype
  let shape := if eng.has_implicit_batch_dimension then batch_size :: b.shape else b.shape
  let device ←
    match torch_device_from_trt (.loc b.location) with
    | .dev d => Except.ok d
    | .typeErrorValue msg => Except.error (.typeError msg)
  pure { shape := shape, dtype := dtype, device := device }

/-- `TRTModule.forward(*inputs)` (fx2trt.py lines 97-129).  The batch
size is unconditionally `inputs[0].shape[0]`; then output tensors are
allocated per output name, input addresses are bound per input name
(`contiguous_inputs[i]` raising `IndexError` when inputs run short),
execution is dispatched asynchronously (an external effect), and the
single output or the tuple of outputs is returned. -/
def TRTModule_forward (ver : String) (m : TRTModule) (inputs : List Tensor) :
    Except PyErr ForwardRet := do
  let first ← pyListGet inputs 0
  let batch_size ← pyListGet first.shape 0
  let contiguous_inputs := inputs
  let input_names ← pyRequire m.input_names (.typeError "object of type NoneType has no len()")
  let output_names ← pyRequire m.output_names (.typeError "object of type NoneType has no len()")
  let eng ← pyRequire m.engine .attributeError
  let outputs ← output_names.mapM (forwardOutputTensor ver eng batch_size)
  let _ ← input_names.enum.mapM (fun p => do
    let _idx ← pyRequire (eng.get_binding_index p.2) (.runtimeError "binding not found")
    let _t ← pyListGet contiguous_inputs p.1
    pure ())
  match outputs with
  | [o] => pure (ForwardRet.single o)
  | os => pure (ForwardRet.tup os)

/-! ### Operator conversion registry -/

/-- The heterogeneous keys of the converter registry: a submodule
runtime type (for `call_module`), a function object (for
`call_function`) or a method-name string (for `call_method`).  Types
and functions are identified by their qualified names. -/
inductive ConverterKey where
  | moduleType (typeName : String)
  | functionObj (funcName : String)
  | methodName (meth : String)
deriving DecidableEq, Repr

/-- A conversion routine, identified opaquely.  The registry stores and
returns routines; their identity is all the claims observe. -/
abbrev Routine := Nat

/-- The registry dictionary.  Python-dict assignment is modelled by
prepending, and lookup takes the first (most recent) entry, so the last
registration for a key wins. -/
abbrev ConverterDict := List (ConverterKey × Routine)

/-- `CONVERTERS = {}` (fx2trt.py line 136): the initial, empty registry. -/
def CONVERTERS : ConverterDict := []

/-- Dict assignment `d[k] = v`. -/
def dict_set (d : ConverterDict) (k : ConverterKey) (v : Routine) : ConverterDict :=
  (k, v) :: d

/-- Dict lookup `d.get(k)`: the most recent value stored under `k`. -/
def dict_get : ConverterDict → ConverterKey → Option Routine
  | [], _ => none
  | (k2, v) :: rest, k => if k2 = k then some v else dict_get rest k

/-- `tensorrt_converter(key)` applied to a converter (fx2trt.py lines
139-143): the inner `register_converter` stores the converter under the
key and returns it unchanged.  The result pairs the returned routine
with the updated registry. -/
def tensorrt_converter (key : ConverterKey) (converter : Routine) (conv : ConverterDict) :
    Routine × ConverterDict :=
  (converter, dict_set conv key converter)

/-! ### Input specifications -/

/-- `InputTensorSpec` (fx2trt.py lines 146-150): shape, dtype, device
(defaulting to host) and whether the shape carries a leading batch
dimension (defaulting to true). -/
structure InputTensorSpec where
  shape : List Nat
  dtype : TorchDtype
  device : TorchDevice
  has_batch_dim : Bool
deriving DecidableEq, Repr

/-- `InputTensorSpec.from_tensor` (fx2trt.py lines 152-154): takes the
shape, dtype and device from a live tensor; `has_batch_dim` defaults to
true. -/
def InputTensorSpec.from_tensor (t : Tensor) : InputTensorSpec :=
  { shape := t.shape, dtype := t.dtype, device := t.device, has_batch_dim := true }

/-- `InputTensorSpec.from_tensors` (fx2trt.py lines 156-158). -/
def InputTensorSpec.from_tensors (ts : List Tensor) : List InputTensorSpec :=
  ts.map InputTensorSpec.from_tensor

/-! ### Network under construction and interpreter state -/

/-- A TensorRT `ITensor` handle as the interpreter observes it. -/
structure ITensor where
  name : String
  shape : List Nat
  dtype : TrtDtype
deriving DecidableEq, Repr

/-- A network output after `mark_output` and the dtype force. -/
structure MarkedOutput where
  name : String
  dtype : TrtDtype
deriving DecidableEq, Repr

/-- The network being built: its batch-dimension mode, registered
inputs and marked outputs. -/
structure TRTNetwork where
  has_implicit_batch_dimension : Bool
  inputs : List ITensor
  markedOutputs : List MarkedOutput
deriving DecidableEq, Repr

/-- `network.add_input(name=..., shape=..., dtype=...)`. -/
def TRTNetwork.add_input (n : TRTNetwork) (name : String) (shape : List Nat) (dtype : TrtDtype) :
    ITensor × TRTNetwork :=
  ({ name := name, shape := shape, dtype := dtype },
   { n with inputs := n.inputs ++ [{ name := name, shape := shape, dtype := dtype }] })

/-- The mutable state of a `BaseTRTInterpreter` during visitation: the
network, the input-spec iterator (remaining suffix) and the recorded
input/output name lists. -/
structure InterpState where
  network : TRTNetwork
  specs_iter : List InputTensorSpec
  input_names : List String
  output_names : List String
deriving DecidableEq, Repr

/-- Values flowing along graph edges: network-tensor handles, tuples,
or non-tensor Python values (an int stands in for any such value). -/
inductive PyVal where
  | tensor (t : ITensor)
  | tup (ts : List PyVal)
  | intVal (n : Int)
  | noneVal

/-- `isinstance(v, trt.tensorrt.ITensor)`. -/
def isITensor : PyVal → Bool
  | .tensor _ => true
  | _ => false

/-! ### Visitation handlers -/

/-- The message of the explicit-batch assertion in `placeholder`
(apostrophes spelled out: the source reads "It's ... when it's ..."). -/
def batchDimensionAssertMsg : String :=
  "It is required to specify batch dimension when it is explicit in TensorRT network."

/-- The `add_input` tail of `placeholder`: map the dtype (raising
`TypeError` when unsupported) and register the input binding. -/
def addInputStep (ver : String) (st : InterpState) (target : String) (shape : List Nat)
    (dtype : TorchDtype) : Except PyErr (ITensor × InterpState) :=
  match torch_dtype_to_trt ver dtype with
  | .error e => .error e
  | .ok d =>
    .ok ((st.network.add_input target shape d).1,
         { st with network := (st.network.add_input target shape d).2 })

/-- `BaseTRTInterpreter.placeholder` (fx2trt.py lines 224-232): record
the target in `_input_names`, consume the next input spec (raising
`StopIteration` when exhausted), strip the leading shape entry when the
network is implicit-batch and the spec declares a batch dimension,
assert a batch dimension when the network is explicit-batch, and
register the input. -/
def BaseTRTInterpreter_placeholder (ver : String) (st : InterpState) (target : String) :
    Except PyErr (ITensor × InterpState) :=
  match st.specs_iter with
  | [] => .error .stopIteration
  | spec :: rest =>
    if st.network.has_implicit_batch_dimension then
      addInputStep ver
        { st with specs_iter := rest, input_names := st.input_names ++ [target] } target
        (if spec.has_batch_dim then spec.shape.drop 1 else spec.shape) spec.dtype
    else
      if spec.has_batch_dim then
        addInputStep ver
          { st with specs_iter := rest, input_names := st.input_names ++ [target] } target
          spec.shape spec.dtype
      else .error (.assertionError batchDimensionAssertMsg)

/-- The value a conversion routine produces: a fresh network-tensor
handle (individual converter bodies are outside this component). -/
def converter_result (r : Routine) : PyVal :=
  .tensor { name := "converter" ++ toString r, shape := [], dtype := TrtDtype.float32 }

/-- `BaseTRTInterpreter.call_module` (fx2trt.py lines 234-242): look up
the submodule runtime type in `CONVERTERS`; raise `RuntimeError` naming
the type when absent. -/
def BaseTRTInterpreter_call_module (conv : ConverterDict) (submodTypeName : String)
    (st : InterpState) : Except PyErr (PyVal × InterpState) :=
  match dict_get conv (.moduleType submodTypeName) with
  | none => .error (.runtimeError
      ("Conversion of module of type " ++ submodTypeName ++ " not currently supported!"))
  | some r => .ok (converter_result r, st)

/-- `BaseTRTInterpreter.call_function` (fx2trt.py lines 244-250): look
up the function object; raise `RuntimeError` naming it when absent. -/
def BaseTRTInterpreter_call_function (conv : ConverterDict) (funcName : String)
    (st : InterpState) : Except PyErr (PyVal × InterpState) :=
  match dict_get conv (.functionObj funcName) with
  | none => .error (.runtimeError
      ("Conversion of function " ++ funcName ++ " not currently supported!"))
  | some r => .ok (converter_result r, st)

/-- `BaseTRTInterpreter.call_method` (fx2trt.py lines 252-259): look up
the method name; raise `RuntimeError` naming it when absent. -/
def BaseTRTInterpreter_call_method (conv : ConverterDict) (methName : String)
    (st : InterpState) : Except PyErr (PyVal × InterpState) :=
  match dict_get conv (.methodName methName) with
  | none => .error (.runtimeError
      ("Conversion of method " ++ methName ++ " not currently supported!"))
  | some r => .ok (converter_result r, st)

/-- `outputs = args[0] if isinstance(args[0], tuple) else (args[0],)`. -/
def outputTuple (a : PyVal) : List PyVal :=
  match a with
  | .tup ts => ts
  | v => [v]

/-- Sequential output names `output0`, `output1`, ... -/
def outputName (i : Nat) : String := "output" ++ toString i

/-- The dtype forced onto every marked output. -/
def forcedDtype (fp16_mode : Bool) : TrtDtype :=
  if fp16_mode then .float16 else .float32

/-- `BaseTRTInterpreter.output` (fx2trt.py lines 261-276): assert a
single argument, coerce it to a tuple, require every element to be a
network-tensor handle (`RuntimeError` otherwise), then name each output
sequentially, mark it, force its dtype and record the name. -/
def BaseTRTInterpreter_output (fp16_mode : Bool) (st : InterpState) (args : List PyVal) :
    Except PyErr InterpState :=
  match args with
  | [a] =>
    let outputs := outputTuple a
    if outputs.all isITensor then
      let marked := outputs.enum.map
        (fun p => ({ name := outputName p.1, dtype := forcedDtype fp16_mode } : MarkedOutput))
      .ok { st with
            network := { st.network with markedOutputs := st.network.markedOutputs ++ marked },
            output_names := st.output_names ++ marked.map MarkedOutput.name }
    else .error (.runtimeError "TensorRT requires all outputs to be Tensor!")
  | _ => .error (.assertionError "len(args) == 1")

/-! ### The graph walk and the build phase -/

/-- A node of the traced graph as the interpreter dispatches on it.
Call nodes carry the resolved operator identity; the output node
carries the values its argument refers to. -/
inductive FxNode where
  | placeholder (target : String)
  | call_module (submodTypeName : String)
  | call_function (funcName : String)
  | call_method (methName : String)
  | output (args : List PyVal)

/-- `run_node`: dispatch one node to its handler (the traversal of
`torch.fx.Interpreter.run`). -/
def run_node (ver : String) (conv : ConverterDict) (fp16_mode : Bool) (st : InterpState) :
    FxNode → Except PyErr InterpState
  | .placeholder t => (BaseTRTInterpreter_placeholder ver st t).map (fun p => p.2)
  | .call_module t => (BaseTRTInterpreter_call_module conv t st).map (fun p => p.2)
  | .call_function f => (BaseTRTInterpreter_call_function conv f st).map (fun p => p.2)
  | .call_method me => (BaseTRTInterpreter_call_method conv me st).map (fun p => p.2)
  | .output args => BaseTRTInterpreter_output fp16_mode st args

/-- The node-by-node visitation (`super().run()`), stopping at the
first raised exception. -/
def interpret (ver : String) (conv : ConverterDict) (fp16_mode : Bool) :
    InterpState → List FxNode → Except PyErr InterpState
  | st, [] => .ok st
  | st, n :: ns => do
    let st2 ← run_node ver conv fp16_mode st n
    interpret ver conv fp16_mode st2 ns

/-- `BaseTRTInterpreter.run` (fx2trt.py lines 185-218): visit every
node, then ask the builder for an engine; `assert(engine)` raises
`AssertionError` when the builder returns `None`; otherwise return the
triple of engine, input names and output names.  The builder is a
parameter `build_engine` standing for
`self.builder.build_engine(self.network, builder_config)`. -/
def BaseTRTInterpreter_run (ver : String) (conv : ConverterDict) (fp16_mode : Bool)
    (build_engine : TRTNetwork → Option CudaEngine) (st0 : InterpState) (nodes : List FxNode) :
    Except PyErr (CudaEngine × List String × List String) := do
  let st ← interpret ver conv fp16_mode st0 nodes
  match build_engine st.network with
  | none => .error (.assertionError "engine")
  | some e => .ok (e, st.input_names, st.output_names)

/-! ### Interpreter constructors -/

/-- `trt.Logger.WARNING`: severity value 2 in the TensorRT Python
enumeration (INTERNAL_ERROR=0, ERROR=1, WARNING=2, INFO=3, VERBOSE=4). -/
def TRT_LOGGER_WARNING : Nat := 2

/-- Python truthiness of an integer-like value. -/
def pyTruthyNat (n : Nat) : Bool := n != 0

/-- `BaseTRTInterpreter.__init__` (fx2trt.py lines 162-183): constructs
`trt.Logger(logger_level)` and creates the network with the
`EXPLICIT_BATCH` flag exactly when `explicit_batch_dimension` is truthy
(source defaults: `explicit_batch_dimension=False`,
`logger_level=trt.Logger.WARNING`).  Result: the severity the logger
was constructed with, and the initial interpreter state. -/
def BaseTRTInterpreter_init (input_specs : List InputTensorSpec)
    (explicit_batch_dimension : Nat) (logger_level : Nat) : Nat × InterpState :=
  (logger_level,
   { network := { has_implicit_batch_dimension := !(pyTruthyNat explicit_batch_dimension),
                  inputs := [], markedOutputs := [] },
     specs_iter := input_specs, input_names := [], output_names := [] })

/-- `TRTInterpreter.__init__` (fx2trt.py lines 283-291): after
preprocessing the module it calls
`super().__init__(module, input_specs, logger_level)` — the
`logger_level` argument lands positionally in the base constructor
parameter `explicit_batch_dimension`, and the base `logger_level`
parameter keeps its default `trt.Logger.WARNING`. -/
def TRTInterpreter_init (input_specs : List InputTensorSpec) (logger_level : Nat) :
    Nat × InterpState :=
  BaseTRTInterpreter_init input_specs logger_level TRT_LOGGER_WARNING

end Fx2Trt

/-! ### Supporting lemmas -/

namespace Fx2Trt

lemma interpret_nil (ver : String) (conv : ConverterDict) (fp : Bool) (st : InterpState) :
    interpret ver conv fp st [] = .ok st := rfl

lemma interpret_cons (ver : String) (conv : ConverterDict) (fp : Bool) (st : InterpState)
    (n : FxNode) (ns : List FxNode) :
    interpret ver conv fp st (n :: ns) =
      Bind.bind (run_node ver conv fp st n) (fun st2 => interpret ver conv fp st2 ns) := rfl

lemma run_node_placeholder (ver : String) (conv : ConverterDict) (fp : Bool) (st : InterpState)
    (t : String) :
    run_node ver conv fp st (FxNode.placeholder t) =
      (BaseTRTInterpreter_placeholder ver st t).map (fun p => p.2) := rfl

/-- A successful placeholder visit consumed exactly the head input spec,
appended the target to the input-name list, and left the batch mode of
the network unchanged. -/
lemma placeholder_ok_state (ver : String) (st : InterpState) (t : String) (it : ITensor)
    (st2 : InterpState) (h : BaseTRTInterpreter_placeholder ver st t = .ok (it, st2)) :
    st2.specs_iter = st.specs_iter.drop 1 ∧
    st2.input_names = st.input_names ++ [t] ∧
    st2.network.has_implicit_batch_dimension = st.network.has_implicit_batch_dimension := by
  unfold BaseTRTInterpreter_placeholder addInputStep at h
  split at h
  · exact absurd h (by simp)
  next spec rest heq =>
    split at h
    · split at h
      · exact absurd h (by simp)
      · simp only [Except.ok.injEq, Prod.mk.injEq] at h
        obtain ⟨-, h2⟩ := h
        subst h2
        simp [heq, TRTNetwork.add_input]
    · split at h
      · split at h
        · exact absurd h (by simp)
        · simp only [Except.ok.injEq, Prod.mk.injEq] at h
          obtain ⟨-, h2⟩ := h
          subst h2
          simp [heq, TRTNetwork.add_input]
      · exact absurd h (by simp)

/-- A placeholder visit succeeds when a spec remains, its dtype is
mappable, and the batch-dimension contract holds. -/
lemma placeholder_ok_of (ver : String) (st : InterpState) (t : String) (spec : InputTensorSpec)
    (rest : List InputTensorSpec) (hs : st.specs_iter = spec :: rest)
    (hd : ∃ d, torch_dtype_to_trt ver spec.dtype = .ok d)
    (hb : st.network.has_implicit_batch_dimension = true ∨ spec.has_batch_dim = true) :
    ∃ it st2, BaseTRTInterpreter_placeholder ver st t = .ok (it, st2) := by
  obtain ⟨d, hd⟩ := hd
  by_cases hib : st.network.has_implicit_batch_dimension = true
  · unfold BaseTRTInterpreter_placeholder addInputStep
    rw [hs]
    simp only [hib, if_true, hd]
    exact ⟨_, _, rfl⟩
  · have hbd : spec.has_batch_dim = true := by
      rcases hb with hb | hb
      · exact absurd hb hib
      · exact hb
    simp only [Bool.not_eq_true] at hib
    unfold BaseTRTInterpreter_placeholder addInputStep
    rw [hs]
    simp only [hib, Bool.false_eq_true, if_false, hbd, if_true, hd]
    exact ⟨_, _, rfl⟩

lemma list_enum_map_fst_map {α β : Type} (g : Nat → β) (l : List α) :
    (l.enum.map fun p => g p.1) = (List.range l.length).map g := by
  rw [show (fun p : Nat × α => g p.1) = g ∘ Prod.fst from rfl, ← List.map_map, List.enum_map_fst]

end Fx2Trt

/-! ### Claim theorems -/

namespace Fx2Trt

/-- C1: the spec claims `torch_device_to_trt` and `torch_device_from_trt`
raise `UnsupportedType` for every device other than host and accelerator
and never return normally there.  The code instead executes
`return TypeError(...)`: both functions are total and, on every
unsupported value, return normally with a `TypeError` object (which does
name the offending value).  This theorem evaluates both functions on the
unsupported domain, exhibiting the normal return. -/
theorem torch_device_maps_return_typeerror_value :
    (∀ d : TorchDevice, d.type ≠ "cuda" → d.type ≠ "cpu" →
      torch_device_to_trt d = .typeErrorValue (d.repr ++ " is not supported by tensorrt")) ∧
    (∀ r : String,
      torch_device_from_trt (.other r) = .typeErrorValue (r ++ " is not supported by torch")) := by
  constructor
  · intro d h1 h2
    simp [torch_device_to_trt, h1, h2]
  · intro r
    rfl

/-- C1 witness: at the concrete unsupported device `torch.device("xla")`
the mapping returns (not raises) the `TypeError` object. -/
theorem torch_device_maps_return_typeerror_value_witness :
    torch_device_to_trt { type := "xla", index := none } =
      DeviceToTrtRet.typeErrorValue "xla is not supported by tensorrt" :=
  torch_device_maps_return_typeerror_value.1
    { type := "xla", index := none } (by decide) (by decide)

/-- C2: the persisted record of a ready `TRTModule` round-trips through
`_on_state_dict` / `_load_from_state_dict` for the engine and both name
lists, but the `fp16_output` flag, although written into the state dict,
is never read back: the restored wrapper keeps the receiving module's
prior flag, so the reduced-precision-output flag does NOT round-trip. -/
theorem fp16_output_flag_not_restored_roundtrip :
    ∀ (m fresh : TRTModule) (e : CudaEngine) (sd : TRTModuleStateDict),
      m.engine = some e → TRTModule_on_state_dict m = .ok sd →
      sd.fp16_output = m.fp16_output ∧
      (TRTModule_load_from_state_dict fresh sd).engine = some e ∧
      (TRTModule_load_from_state_dict fresh sd).input_names = m.input_names ∧
      (TRTModule_load_from_state_dict fresh sd).output_names = m.output_names ∧
      (TRTModule_load_from_state_dict fresh sd).fp16_output = fresh.fp16_output := by
  intro m fresh e sd he hs
  simp only [TRTModule_on_state_dict, he, Except.ok.injEq] at hs
  subst hs
  simp [TRTModule_load_from_state_dict, deserialize_cuda_engine, CudaEngine.serialize]

/-- C2 witness: serializing a wrapper whose flag is `true` and loading
the record into a freshly constructed wrapper (default flag `false`)
yields flag `false` — the original flag is lost. -/
theorem fp16_output_flag_not_restored_roundtrip_witness :
    (TRTModule_load_from_state_dict (TRTModule_init none none none false)
        { engine := { bindings := [], has_implicit_batch_dimension := true },
          input_names := some ["x"], output_names := some ["output0"],
          fp16_output := true }).fp16_output = false ∧
    (TRTModule_init (some { bindings := [], has_implicit_batch_dimension := true })
        (some ["x"]) (some ["output0"]) true).fp16_output = true := by
  have h := fp16_output_flag_not_restored_roundtrip
    (TRTModule_init (some { bindings := [], has_implicit_batch_dimension := true })
      (some ["x"]) (some ["output0"]) true)
    (TRTModule_init none none none false)
    { bindings := [], has_implicit_batch_dimension := true }
    { engine := { bindings := [], has_implicit_batch_dimension := true },
      input_names := some ["x"], output_names := some ["output0"], fp16_output := true }
    rfl rfl
  exact ⟨h.2.2.2.2, rfl⟩

/-- C3: the placeholder handler consumes input specifications one per
placeholder in visitation order: with the iterator empty it fails with
`StopIteration` (the spec's SpecificationExhausted); on an
explicit-batch network a spec without a batch dimension fails the
assertion (MissingBatchDimension); on an implicit-batch network a spec
with a batch dimension has its leading shape entry stripped before the
input is registered; over a graph of N placeholders a successful
interpretation consumes exactly N specs in order, and fewer than N
well-formed specs make interpretation fail with `StopIteration` at the
first placeholder with none remaining. -/
theorem placeholder_spec_consumption_contract :
    (∀ (ver : String) (st : InterpState) (target : String),
      st.specs_iter = [] →
      BaseTRTInterpreter_placeholder ver st target = .error .stopIteration) ∧
    (∀ (ver : String) (st : InterpState) (target : String) (spec : InputTensorSpec)
       (rest : List InputTensorSpec),
      st.specs_iter = spec :: rest →
      st.network.has_implicit_batch_dimension = false →
      spec.has_batch_dim = false →
      BaseTRTInterpreter_placeholder ver st target =
        .error (.assertionError batchDimensionAssertMsg)) ∧
    (∀ (ver : String) (st : InterpState) (target : String) (spec : InputTensorSpec)
       (rest : List InputTensorSpec) (d : TrtDtype),
      st.specs_iter = spec :: rest →
      st.network.has_implicit_batch_dimension = true →
      spec.has_batch_dim = true →
      torch_dtype_to_trt ver spec.dtype = .ok d →
      BaseTRTInterpreter_placeholder ver st target =
        .ok ({ name := target, shape := spec.shape.drop 1, dtype := d },
             { st with
               specs_iter := rest,
               input_names := st.input_names ++ [target],
               network := { st.network with
                            inputs := st.network.inputs ++
                                      [{ name := target, shape := spec.shape.drop 1,
                                         dtype := d }] } })) ∧
    (∀ (ver : String) (conv : ConverterDict) (fp16_mode : Bool) (targets : List String)
       (st0 st1 : InterpState),
      interpret ver conv fp16_mode st0 (targets.map FxNode.placeholder) = .ok st1 →
      st1.specs_iter = st0.specs_iter.drop targets.length ∧
      st1.input_names = st0.input_names ++ targets) ∧
    (∀ (ver : String) (conv : ConverterDict) (fp16_mode : Bool) (targets : List String)
       (st0 : InterpState),
      (∀ s ∈ st0.specs_iter, (∃ d, torch_dtype_to_trt ver s.dtype = .ok d) ∧
        (st0.network.has_implicit_batch_dimension = true ∨ s.has_batch_dim = true)) →
      st0.specs_iter.length < targets.length →
      interpret ver conv fp16_mode st0 (targets.map FxNode.placeholder) =
        .error .stopIteration) := by
  refine ⟨?_, ?_, ?_, ?_, ?_⟩
  · intro ver st target hs
    unfold BaseTRTInterpreter_placeholder
    rw [hs]
  · intro ver st target spec rest hs hib hbd
    unfold BaseTRTInterpreter_placeholder
    rw [hs]
    simp [hib, hbd]
  · intro ver st target spec rest d hs hib hbd hd
    unfold BaseTRTInterpreter_placeholder addInputStep TRTNetwork.add_input
    rw [hs]
    simp [hib, hbd, hd]
  · intro ver conv fp targets
    induction targets with
    | nil =>
      intro st0 st1 h
      rw [List.map_nil, interpret_nil] at h
      cases h
      simp
    | cons t ts ih =>
      intro st0 st1 h
      rw [List.map_cons, interpret_cons] at h
      cases hp : BaseTRTInterpreter_placeholder ver st0 t with
      | error e =>
        rw [run_node_placeholder, hp] at h
        exact absurd h (by simp [Except.map, Bind.bind, Except.bind])
      | ok p =>
        obtain ⟨it, st2⟩ := p
        rw [run_node_placeholder, hp] at h
        simp only [Except.map, Bind.bind, Except.bind] at h
        obtain ⟨e1, e2, -⟩ := placeholder_ok_state ver st0 t it st2 hp
        obtain ⟨ih1, ih2⟩ := ih st2 st1 h
        constructor
        · rw [ih1, e1, List.drop_drop, List.length_cons, Nat.add_comm]
        · rw [ih2, e2, List.append_assoc, List.singleton_append]
  · intro ver conv fp targets
    induction targets with
    | nil =>
      intro st0 _ hlen
      exact absurd hlen (Nat.not_lt_zero _)
    | cons t ts ih =>
      intro st0 hcond hlen
      rw [List.map_cons, interpret_cons]
      cases hs : st0.specs_iter with
      | nil =>
        have hp : BaseTRTInterpreter_placeholder ver st0 t = .error .stopIteration := by
          unfold BaseTRTInterpreter_placeholder
          rw [hs]
        rw [run_node_placeholder, hp]
        simp [Except.map, Bind.bind, Except.bind]
      | cons spec rest =>
        have hmem : spec ∈ st0.specs_iter := by
          rw [hs]
          exact List.mem_cons_self _ _
        obtain ⟨hd, hb⟩ := hcond spec hmem
        obtain ⟨it, st2, hp⟩ := placeholder_ok_of ver st0 t spec rest hs hd hb
        obtain ⟨e1, e2, e3⟩ := placeholder_ok_state ver st0 t it st2 hp
        rw [run_node_placeholder, hp]
        simp only [Except.map, Bind.bind, Except.bind]
        apply ih st2
        · intro s hmem2
          have hmem3 : s ∈ st0.specs_iter := by
            rw [hs]
            rw [e1, hs] at hmem2
            exact List.mem_cons_of_mem _ (by simpa using hmem2)
          obtain ⟨hd2, hb2⟩ := hcond s hmem3
          exact ⟨hd2, by rw [e3]; exact hb2⟩
        · rw [e1, hs]
          simp only [List.drop_succ_cons, List.drop_zero]
          rw [hs] at hlen
          simpa using Nat.lt_of_succ_lt_succ (by simpa using hlen)

/-- C3 witness: a placeholder visited with no remaining specification
fails with `StopIteration` (SpecificationExhausted). -/
theorem placeholder_spec_consumption_contract_witness :
    BaseTRTInterpreter_placeholder "7.0"
      { network := { has_implicit_batch_dimension := true, inputs := [], markedOutputs := [] },
        specs_iter := [], input_names := [], output_names := [] } "x" =
      .error .stopIteration :=
  placeholder_spec_consumption_contract.1 "7.0" _ "x" rfl

end Fx2Trt

namespace Fx2Trt

/-- C4: for every supported scalar type (int8, int32, float16, float32,
and bool when the engine version supports it) the dtype mapping
round-trips to the identity, and for both supported devices (host and
accelerator) the device mapping round-trips to the identity. -/
theorem supported_dtype_device_roundtrip_identity :
    (∀ (ver : String) (d : TorchDtype), supportedTorchDtype ver d = true →
      (torch_dtype_to_trt ver d).bind (torch_dtype_from_trt ver) = .ok d) ∧
    device_roundtrip deviceCpu = .dev deviceCpu ∧
    device_roundtrip deviceCuda = .dev deviceCuda := by
  refine ⟨?_, rfl, rfl⟩
  intro ver d h
  cases d <;>
    simp_all [supportedTorchDtype, torch_dtype_to_trt, torch_dtype_from_trt, Except.bind]

/-- C4 witness: the round-trip at the version-guarded dtype `bool` with
version string `7.0`. -/
theorem supported_dtype_device_roundtrip_identity_witness :
    supportedTorchDtype "7.0" TorchDtype.bool = true ∧
    (torch_dtype_to_trt "7.0" TorchDtype.bool).bind (torch_dtype_from_trt "7.0") =
      .ok TorchDtype.bool :=
  ⟨by decide, supported_dtype_device_roundtrip_identity.1 "7.0" TorchDtype.bool (by decide)⟩

/-- C5: a module, function or method call whose operator identity has no
registry entry makes the handler raise `RuntimeError` naming the
operator (UnsupportedOperator), and any visitation error makes `run`
return that error for every builder — the engine build is never
reached. -/
theorem unregistered_operator_fails_before_build :
    (∀ (conv : ConverterDict) (t : String) (st : InterpState),
      dict_get conv (.moduleType t) = none →
      BaseTRTInterpreter_call_module conv t st = .error (.runtimeError
        ("Conversion of module of type " ++ t ++ " not currently supported!"))) ∧
    (∀ (conv : ConverterDict) (f : String) (st : InterpState),
      dict_get conv (.functionObj f) = none →
      BaseTRTInterpreter_call_function conv f st = .error (.runtimeError
        ("Conversion of function " ++ f ++ " not currently supported!"))) ∧
    (∀ (conv : ConverterDict) (me : String) (st : InterpState),
      dict_get conv (.methodName me) = none →
      BaseTRTInterpreter_call_method conv me st = .error (.runtimeError
        ("Conversion of method " ++ me ++ " not currently supported!"))) ∧
    (∀ (ver : String) (conv : ConverterDict) (fp16_mode : Bool) (st0 : InterpState)
      (nodes : List FxNode) (e : PyErr) (build_engine : TRTNetwork → Option CudaEngine),
      interpret ver conv fp16_mode st0 nodes = .error e →
      BaseTRTInterpreter_run ver conv fp16_mode build_engine st0 nodes = .error e) := by
  refine ⟨?_, ?_, ?_, ?_⟩
  · intro conv t st h
    simp [BaseTRTInterpreter_call_module, h]
  · intro conv f st h
    simp [BaseTRTInterpreter_call_function, h]
  · intro conv me st h
    simp [BaseTRTInterpreter_call_method, h]
  · intro ver conv fp st0 nodes e build h
    simp [BaseTRTInterpreter_run, h, Bind.bind, Except.bind]

/-- C5 witness: a module call on the empty registry fails naming the
module type. -/
theorem unregistered_operator_fails_before_build_witness :
    BaseTRTInterpreter_call_module CONVERTERS "torch.nn.modules.linear.Linear"
      { network := { has_implicit_batch_dimension := true, inputs := [], markedOutputs := [] },
        specs_iter := [], input_names := [], output_names := [] } =
      .error (.runtimeError
        "Conversion of module of type torch.nn.modules.linear.Linear not currently supported!") :=
  unregistered_operator_fails_before_build.1 CONVERTERS "torch.nn.modules.linear.Linear" _ rfl

/-- C6: an output node whose tuple contains a non-tensor value fails
with `RuntimeError` (NonTensorOutput); a single tensor yields exactly
the output name `output0`; a tuple of k tensors yields `output0` ..
`output(k-1)` in argument order; and every marked output's dtype is
forced to float16 in reduced-precision mode and float32 otherwise. -/
theorem output_node_naming_and_dtype_contract :
    (∀ (fp16_mode : Bool) (st : InterpState) (a : PyVal),
      (∃ o ∈ outputTuple a, isITensor o = false) →
      BaseTRTInterpreter_output fp16_mode st [a] =
        .error (.runtimeError "TensorRT requires all outputs to be Tensor!")) ∧
    (∀ (fp16_mode : Bool) (st : InterpState) (t : ITensor),
      BaseTRTInterpreter_output fp16_mode st [PyVal.tensor t] =
        .ok { st with
              network := { st.network with
                           markedOutputs := st.network.markedOutputs ++
                                            [{ name := "output0",
                                               dtype := if fp16_mode then TrtDtype.float16
                                                        else TrtDtype.float32 }] },
              output_names := st.output_names ++ ["output0"] }) ∧
    (∀ (fp16_mode : Bool) (st : InterpState) (ts : List ITensor),
      BaseTRTInterpreter_output fp16_mode st [PyVal.tup (ts.map PyVal.tensor)] =
        .ok { st with
              network := { st.network with
                           markedOutputs := st.network.markedOutputs ++
                                            (List.range ts.length).map (fun i =>
                                              { name := outputName i,
                                                dtype := if fp16_mode then TrtDtype.float16
                                                         else TrtDtype.float32 }) },
              output_names := st.output_names ++ (List.range ts.length).map outputName }) := by
  refine ⟨?_, ?_, ?_⟩
  · intro fp st a h
    have hall : (outputTuple a).all isITensor = false := by
      rw [List.all_eq_false]
      obtain ⟨o, ho, hno⟩ := h
      exact ⟨o, ho, by simp [hno]⟩
    simp [BaseTRTInterpreter_output, hall]
  · intro fp st t
    simp only [BaseTRTInterpreter_output, outputTuple, isITensor, List.all_cons, List.all_nil,
      Bool.and_true, if_true, List.enum, List.enumFrom, List.map, forcedDtype]
    have h0 : outputName 0 = "output0" := rfl
    simp [outputName] at h0 ⊢
    simp [h0]
  · intro fp st ts
    have hall : ((ts.map PyVal.tensor).all isITensor) = true := by
      rw [List.all_eq_true]
      intro x hx
      obtain ⟨t, _, rfl⟩ := List.mem_map.mp hx
      rfl
    have hmark :
        ((ts.map PyVal.tensor).enum.map fun p =>
          ({ name := outputName p.1, dtype := forcedDtype fp } : MarkedOutput)) =
        (List.range ts.length).map fun i =>
          ({ name := outputName i, dtype := forcedDtype fp } : MarkedOutput) := by
      rw [List.enum_map, List.map_map]
      have := list_enum_map_fst_map
        (fun i => ({ name := outputName i, dtype := forcedDtype fp } : MarkedOutput)) ts
      simpa [Function.comp] using this
    simp only [BaseTRTInterpreter_output, outputTuple, hall, if_true]
    rw [hmark]
    simp [List.map_map, outputName, forcedDtype, Function.comp]

/-- C6 witness: an output node carrying the non-tensor value `3` fails
with the NonTensorOutput error. -/
theorem output_node_naming_and_dtype_contract_witness :
    BaseTRTInterpreter_output true
      { network := { has_implicit_batch_dimension := true, inputs := [], markedOutputs := [] },
        specs_iter := [], input_names := [], output_names := [] }
      [PyVal.intVal 3] =
      .error (.runtimeError "TensorRT requires all outputs to be Tensor!") :=
  output_node_naming_and_dtype_contract.1 true _ (PyVal.intVal 3)
    ⟨PyVal.intVal 3, by simp [outputTuple], rfl⟩

end Fx2Trt

namespace Fx2Trt

/-- C7: the registration decorator returns the routine unchanged and
makes lookup of the key return exactly that routine; re-registering the
same key overwrites (last registration wins); lookup of a key never
registered — in particular any key in the initial empty `CONVERTERS` —
returns absent. -/
theorem converter_registry_contract :
    (∀ (conv : ConverterDict) (k : ConverterKey) (r : Routine),
      (tensorrt_converter k r conv).1 = r) ∧
    (∀ (conv : ConverterDict) (k : ConverterKey) (r : Routine),
      dict_get (tensorrt_converter k r conv).2 k = some r) ∧
    (∀ (conv : ConverterDict) (k : ConverterKey) (r1 r2 : Routine),
      dict_get (tensorrt_converter k r2 (tensorrt_converter k r1 conv).2).2 k = some r2) ∧
    (∀ (conv : ConverterDict) (k : ConverterKey),
      (∀ v, (k, v) ∉ conv) → dict_get conv k = none) ∧
    (∀ k : ConverterKey, dict_get CONVERTERS k = none) := by
  refine ⟨fun _ _ _ => rfl, ?_, ?_, ?_, fun _ => rfl⟩
  · intro conv k r
    simp [tensorrt_converter, dict_set, dict_get]
  · intro conv k r1 r2
    simp [tensorrt_converter, dict_set, dict_get]
  · intro conv k h
    induction conv with
    | nil => rfl
    | cons p rest ih =>
      obtain ⟨k2, v⟩ := p
      by_cases hk : k2 = k
      · subst hk
        exact absurd (List.mem_cons_self (k2, v) rest) (h v)
      · simp only [dict_get, if_neg hk]
        exact ih (fun v2 hv2 => h v2 (List.mem_cons_of_mem _ hv2))

/-- C7 witness: the key `call_method "relu"` is absent from the initial
registry, and lookup returns absent. -/
theorem converter_registry_contract_witness :
    dict_get CONVERTERS (ConverterKey.methodName "relu") = none :=
  converter_registry_contract.2.2.2.1 CONVERTERS (ConverterKey.methodName "relu")
    (fun v h => by simp [CONVERTERS] at h)

/-- C8: when visitation completes, `run` returns the builder's engine
together with the input-name list (placeholder-visitation order) and
the output-name list (output-visitation order); when the builder
returns no engine, `assert(engine)` fails with `AssertionError`
(EngineBuildFailed) and no engine is returned. -/
theorem run_engine_build_contract :
    ∀ (ver : String) (conv : ConverterDict) (fp16_mode : Bool) (st0 : InterpState)
      (nodes : List FxNode) (st : InterpState)
      (build_engine : TRTNetwork → Option CudaEngine),
      interpret ver conv fp16_mode st0 nodes = .ok st →
      (build_engine st.network = none →
        BaseTRTInterpreter_run ver conv fp16_mode build_engine st0 nodes =
          .error (.assertionError "engine")) ∧
      ∀ e, build_engine st.network = some e →
        BaseTRTInterpreter_run ver conv fp16_mode build_engine st0 nodes =
          .ok (e, st.input_names, st.output_names) := by
  intro ver conv fp st0 nodes st build h
  constructor
  · intro hb
    simp [BaseTRTInterpreter_run, h, hb, Bind.bind, Except.bind]
  · intro e hb
    simp [BaseTRTInterpreter_run, h, hb, Bind.bind, Except.bind]

/-- C8 witness: on the empty graph with a builder that returns no
engine, `run` fails with the assertion error. -/
theorem run_engine_build_contract_witness :
    BaseTRTInterpreter_run "7.0" CONVERTERS true (fun _ => none)
      { network := { has_implicit_batch_dimension := true, inputs := [], markedOutputs := [] },
        specs_iter := [], input_names := [], output_names := [] } [] =
      .error (.assertionError "engine") :=
  (run_engine_build_contract "7.0" CONVERTERS true _ [] _ (fun _ => none) rfl).1 rfl

/-- C9: `TRTInterpreter.__init__` passes its `logger_level` argument
positionally into the base constructor's `explicit_batch_dimension`
parameter, so the network is explicit-batch exactly when the level is
non-zero (including the default WARNING = 2), and the logger is always
constructed with the default WARNING severity — the requested level is
never applied. -/
theorem trt_interpreter_init_logger_level_misrouted :
    ∀ (specs : List InputTensorSpec) (logger_level : Nat),
      (TRTInterpreter_init specs logger_level).2.network.has_implicit_batch_dimension
        = (logger_level == 0) ∧
      (TRTInterpreter_init specs logger_level).1 = TRT_LOGGER_WARNING ∧
      (TRTInterpreter_init specs TRT_LOGGER_WARNING).2.network.has_implicit_batch_dimension
        = false := by
  intro specs lvl
  refine ⟨?_, rfl, rfl⟩
  simp [TRTInterpreter_init, BaseTRTInterpreter_init, pyTruthyNat, bne]

/-- C10: `TRTModule.forward` takes the batch size unconditionally from
`inputs[0].shape[0]`, so with zero input tensors it fails with
`IndexError` for every wrapper — before any binding or engine
interaction, and regardless of the engine's batch mode. -/
theorem forward_zero_inputs_fails_index_error :
    ∀ (ver : String) (m : TRTModule), TRTModule_forward ver m [] = .error .indexError := by
  intro ver m
  rfl

end Fx2Trt
